import Mathlib

/-!
Shallow embedding of the browser chat client in `src/components/Chat.jsx`.

Network effects are modelled by passing each operation the outcome of the
fetch calls it performs (an oracle argument); React state updates become
explicit transformations of a `ChatState` record; the orderable side
effects of `sendMessage` (optimistic append, issuing the ask request,
speaking) are additionally recorded as an event trace.  Browser speech
synthesis is modelled by the list of commands issued to the engine.
-/

namespace ChatClient

/-- Message record: role ("user" or "assistant") and text content. -/
structure Message where
  role : String
  content : String
deriving DecidableEq, Repr

/-- Conversation list entry: id, optional title, optional timestamp string. -/
structure Conversation where
  id : String
  title : Option String
  last_message_at : Option String
deriving DecidableEq, Repr

/-- The React component state of `Chat`: one field per `useState` hook plus
`recognitionCreated` modelling whether `recognitionRef.current` is non-null. -/
structure ChatState where
  conversations : List Conversation
  activeId : Option String
  messages : List Message
  input : String
  loading : Bool
  voiceEnabled : Bool
  listening : Bool
  micPermission : String
  voiceStatus : String
  recognitionCreated : Bool
deriving DecidableEq, Repr

/-- Outcome of the POST /api/ask fetch: the fetch promise rejected or the
response body failed to parse (`netErr`), the response was non-OK (`httpErr`,
which the code converts to a thrown Error), or OK with `data.reply` (`success`). -/
inductive AskOutcome where
  | netErr
  | httpErr
  | success (reply : String)
deriving DecidableEq, Repr

/-- Outcome of a GET messages fetch: a parsed JSON array, a parsed value that
is not an array (`Array.isArray(data)` false), or a rejected fetch / failed parse. -/
inductive MessagesResp where
  | arr (data : List Message)
  | nonArray
  | fail
deriving DecidableEq, Repr

/-- Observable side effects of `sendMessage`, in program order. -/
inductive Event where
  | appendUser (content : String)
  | clearInput
  | setLoadingTrue
  | askRequest (message : String) (conversationId : Option String)
  | appendAssistant (content : String)
  | refreshList
  | speak (text : String)
  | setLoadingFalse
deriving DecidableEq, Repr

/-- The fixed apology text appended on a failed ask call. -/
def apologyText : String := "Sorry, I ran into an issue reaching the brain. Try again."

/-- The canned assistant greeting used whenever a message history would be blank. -/
def greetingMessage : Message :=
  { role := "assistant", content := "Hi! I\x27m your AI assistant. How can I help today?" }

/-- The assistant message shown after the New-conversation action. -/
def newChatMessage : Message :=
  { role := "assistant", content := "New chat started. What would you like to discuss?" }

/-- Embedding of the JS builtin `String.prototype.trim` used by `sendMessage`:
drops leading and trailing whitespace.  Written by structural recursion on the
character list so that it evaluates by kernel reduction. -/
def jsTrim (s : String) : String :=
  String.mk (((s.data.dropWhile Char.isWhitespace).reverse.dropWhile Char.isWhitespace).reverse)

/-- Embedding of `sendMessage`.  `ask` is the outcome of the POST /api/ask
fetch; `listResp` is the outcome of the follow-up GET /api/conversations
refresh (`none` meaning that fetch rejected, whose failure the code swallows).
Returns the final state together with the trace of effects in program order:
the guard `if (!text || loading) return` does nothing; otherwise the code
appends the user message, clears the input, sets loading, issues the ask
request, and on success appends the reply, refreshes the list, then speaks
when voice is enabled; on failure appends the apology; `finally` clears
loading. -/
def sendMessage (s : ChatState) (ask : AskOutcome) (listResp : Option (List Conversation)) :
    ChatState × List Event :=
  if jsTrim s.input = "" ∨ s.loading = true then (s, [])
  else
    match ask with
    | AskOutcome.success reply =>
        ({ s with
            messages := (s.messages ++ [{ role := "user", content := jsTrim s.input }])
                          ++ [{ role := "assistant", content := reply }],
            input := "",
            conversations := match listResp with
                             | some list => list
                             | none => s.conversations,
            loading := false },
         [Event.appendUser (jsTrim s.input), Event.clearInput, Event.setLoadingTrue,
          Event.askRequest (jsTrim s.input) s.activeId, Event.appendAssistant reply]
           ++ (match listResp with
               | some _ => [Event.refreshList]
               | none => ([] : List Event))
           ++ (if s.voiceEnabled = true then [Event.speak reply] else [])
           ++ [Event.setLoadingFalse])
    | AskOutcome.netErr =>
        ({ s with
            messages := (s.messages ++ [{ role := "user", content := jsTrim s.input }])
                          ++ [{ role := "assistant", content := apologyText }],
            input := "",
            loading := false },
         [Event.appendUser (jsTrim s.input), Event.clearInput, Event.setLoadingTrue,
          Event.askRequest (jsTrim s.input) s.activeId,
          Event.appendAssistant apologyText, Event.setLoadingFalse])
    | AskOutcome.httpErr =>
        ({ s with
            messages := (s.messages ++ [{ role := "user", content := jsTrim s.input }])
                          ++ [{ role := "assistant", content := apologyText }],
            input := "",
            loading := false },
         [Event.appendUser (jsTrim s.input), Event.clearInput, Event.setLoadingTrue,
          Event.askRequest (jsTrim s.input) s.activeId,
          Event.appendAssistant apologyText, Event.setLoadingFalse])

/-- Number of optimistic user-message appends recorded in a trace. -/
def countUserAppends (tr : List Event) : Nat :=
  tr.countP fun e => match e with
    | Event.appendUser _ => true
    | _ => false

/-- True of the speak effect. -/
def isSpeakEvent : Event → Bool := fun e => match e with
  | Event.speak _ => true
  | _ => false

/-- True of the conversation-list refresh effect. -/
def isRefreshEvent : Event → Bool := fun e => match e with
  | Event.refreshList => true
  | _ => false

/-- The ordering asserted by the spec for the success path of `sendMessage`:
the speak effect comes before the list refresh in the trace. -/
def speakPrecedesRefresh (tr : List Event) : Prop :=
  tr.findIdx isSpeakEvent < tr.findIdx isRefreshEvent

/-- Embedding of `loadMessages`: replaces the visible history with the fetched
array when it is a non-empty array, and with the single canned greeting when the
array is empty, the parsed value is not an array, or the fetch / parse failed. -/
def loadMessages (s : ChatState) (resp : MessagesResp) : ChatState :=
  match resp with
  | MessagesResp.arr data =>
      if data.length > 0 then { s with messages := data }
      else { s with messages := [greetingMessage] }
  | MessagesResp.nonArray => { s with messages := [greetingMessage] }
  | MessagesResp.fail => { s with messages := [greetingMessage] }

/-- Embedding of `selectConversation`: early return when `id === activeId`,
otherwise set the active id and load that conversation's messages. -/
def selectConversation (s : ChatState) (id : String) (resp : MessagesResp) : ChatState :=
  if some id = s.activeId then s
  else loadMessages { s with activeId := some id } resp

/-- Embedding of `createConversation`.  `resp` is the parsed POST
/api/conversations response, `none` when the fetch rejects or parsing fails.
The function body has no try/catch, so a failure is an uncaught exception,
modelled as `Except.error`; on success the created record is prepended to the
list and returned. -/
def createConversation (s : ChatState) (resp : Option Conversation) :
    Except Unit (ChatState × Conversation) :=
  match resp with
  | none => Except.error ()
  | some data =>
      Except.ok ({ s with conversations := data :: s.conversations }, data)

/-- Embedding of `newConversation` (the New-button click handler): awaits
`createConversation` with no try/catch of its own, so its failure propagates;
on success sets the active id and the fresh-chat message. -/
def newConversation (s : ChatState) (resp : Option Conversation) :
    Except Unit ChatState :=
  match createConversation s resp with
  | Except.error e => Except.error e
  | Except.ok (s1, created) =>
      Except.ok { s1 with activeId := some created.id, messages := [newChatMessage] }

/-- Embedding of the `init` effect run on mount.  `listResp` is the parsed GET
/api/conversations response (`none` on rejection or parse failure),
`createResp` feeds the inner `createConversation` call used when the list is
empty, `msgResp` feeds the `loadMessages` call.  The whole body is wrapped in
try/catch whose handler substitutes the ephemeral greeting session. -/
def init (s : ChatState) (listResp : Option (List Conversation))
    (createResp : Option Conversation) (msgResp : MessagesResp) : ChatState :=
  match listResp with
  | none => { s with messages := [greetingMessage] }
  | some data =>
      match data with
      | c :: _ =>
          loadMessages { s with conversations := data, activeId := some c.id } msgResp
      | [] =>
          match createConversation { s with conversations := data } createResp with
          | Except.error _ =>
              { s with conversations := data, messages := [greetingMessage] }
          | Except.ok (s2, created) =>
              loadMessages { s2 with activeId := some created.id } msgResp

/-- Embedding of `handleKey`: given the key name and whether Shift is held,
returns (preventDefault called, sendMessage invoked). -/
structure KeyEvent where
  key : String
  shiftKey : Bool
deriving DecidableEq, Repr

/-- The textarea onKeyDown handler: plain Enter calls `e.preventDefault()` and
`sendMessage()`; anything else falls through to the default behaviour. -/
def handleKey (e : KeyEvent) : Bool × Bool :=
  if e.key = "Enter" ∧ e.shiftKey = false then (true, true) else (false, false)

/-- A speech-synthesis voice as cached in `voicesRef`. -/
structure Voice where
  name : String
  lang : String
deriving DecidableEq, Repr

/-- Whether `pat` occurs as a contiguous sublist: the list has a suffix of
which `pat` is a prefix. -/
def hasSubstring (pat : List Char) : List Char → Bool
  | [] => List.isPrefixOf pat []
  | c :: rest => List.isPrefixOf pat (c :: rest) || hasSubstring pat rest

/-- Case-insensitive substring occurrence, embedding `RegExp.test` for the
alternation-free literal patterns used by the code.  Written over character
lists so that it evaluates by kernel reduction. -/
def containsCI (s pat : String) : Bool :=
  hasSubstring (pat.data.map Char.toLower) (s.data.map Char.toLower)

/-- Embedding of the regex test `/en-US|en_GB/i.test(v.lang)`. -/
def langMatchesEnglish (v : Voice) : Bool :=
  containsCI v.lang "en-US" || containsCI v.lang "en_GB"

/-- Embedding of the regex test `/Female|Google|Natural/i.test(v.name)`. -/
def nameSuggestsNatural (v : Voice) : Bool :=
  containsCI v.name "Female" || containsCI v.name "Google" || containsCI v.name "Natural"

/-- The combined voice predicate used in `voicesRef.current.find(...)`. -/
def isPreferredVoice (v : Voice) : Bool :=
  langMatchesEnglish v && nameSuggestsNatural v

/-- The voice assigned to the utterance: the first cached voice passing the
predicate, else the first cached voice (`|| voicesRef.current[0]`); `none`
leaves `utter.voice` unset so the platform default is used. -/
def preferredVoice (voices : List Voice) : Option Voice :=
  match voices.find? isPreferredVoice with
  | some v => some v
  | none => voices.head?

/-- A SpeechSynthesisUtterance as configured by `speakText`. -/
structure Utterance where
  text : String
  voice : Option Voice
  rate : Nat
  pitch : Nat
  volume : Nat
deriving DecidableEq, Repr

/-- Commands issued to the speech-synthesis engine. -/
inductive SynthCmd where
  | cancel
  | speakUtterance (u : Utterance)
deriving DecidableEq, Repr

/-- Embedding of `speakText`: no commands when synthesis is unsupported;
otherwise cancel any current utterance, then speak the configured one. -/
def speakText (synthSupported : Bool) (voices : List Voice) (text : String) :
    List SynthCmd :=
  if synthSupported = false then []
  else
    [SynthCmd.cancel,
     SynthCmd.speakUtterance
       { text := text, voice := preferredVoice voices, rate := 1, pitch := 1, volume := 1 }]

/-- Status string set when speech recognition is unsupported. -/
def unsupportedRecMessage : String := "Speech recognition is not supported in this browser."

/-- Status string set when the microphone permission prompt is denied. -/
def micBlockedMessage : String :=
  "Microphone permission blocked. Please allow access in your browser settings."

/-- Status string set when recognition starts. -/
def listeningMessage : String := "Listening..."

/-- Status string set when `recognition.start()` throws. -/
def startFailMessage : String :=
  "Could not start speech recognition. Make sure only one tab is listening."

/-- Outcome of the getUserMedia permission prompt: the platform lacks
`navigator.mediaDevices.getUserMedia` (treated as OK), or the prompt resolves
(granted) or rejects (denied). -/
inductive MicOutcome where
  | noGetUserMedia
  | granted
  | denied
deriving DecidableEq, Repr

/-- Embedding of `ensureMicPermission`: returns the updated state and whether
the caller may proceed. -/
def ensureMicPermission (s : ChatState) (m : MicOutcome) : ChatState × Bool :=
  match m with
  | MicOutcome.noGetUserMedia => (s, true)
  | MicOutcome.granted => ({ s with micPermission := "granted" }, true)
  | MicOutcome.denied =>
      ({ s with micPermission := "denied", voiceStatus := micBlockedMessage }, false)

/-- Environment of one `toggleListening` invocation: the permission-prompt
outcome and whether `recognition.start()` succeeds. -/
structure ToggleEnv where
  micOutcome : MicOutcome
  startOk : Bool
deriving DecidableEq, Repr

/-- Embedding of `toggleListening`.  Unsupported browsers only get a status
message; otherwise the recognition instance is created on first use
(`if (!recognitionRef.current)`), a listening session is stopped, and an idle
one requests permission and starts recognition. -/
def toggleListening (recSupported : Bool) (s : ChatState) (env : ToggleEnv) : ChatState :=
  if recSupported = false then
    { s with voiceStatus := unsupportedRecMessage }
  else
    let s1 := if s.recognitionCreated then s else { s with recognitionCreated := true }
    if s1.listening then { s1 with listening := false }
    else
      let p := ensureMicPermission s1 env.micOutcome
      if p.2 = false then p.1
      else if env.startOk then
        { p.1 with voiceStatus := listeningMessage, listening := true }
      else
        { p.1 with listening := false, voiceStatus := startFailMessage }

/-- Whether one `toggleListening` invocation constructs a recognition
instance: only in a supported browser with no instance cached yet. -/
def createsRecognition (recSupported : Bool) (s : ChatState) : Bool :=
  recSupported && !s.recognitionCreated

/-- Runs a sequence of `toggleListening` invocations, counting how many of
them construct a recognition instance. -/
def runToggles (recSupported : Bool) (s : ChatState) : List ToggleEnv → ChatState × Nat
  | [] => (s, 0)
  | e :: es =>
      let created := if createsRecognition recSupported s then 1 else 0
      let rest := runToggles recSupported (toggleListening recSupported s e) es
      (rest.1, created + rest.2)

/-- A sample voice catalog used to instantiate theorems on concrete inputs. -/
def sampleVoices : List Voice :=
  [{ name := "Google US English Female", lang := "en-US" },
   { name := "Anna", lang := "de-DE" }]

/-- A sample session state used to instantiate theorems on concrete inputs. -/
def sampleState : ChatState :=
  { conversations := [], activeId := some "c1", messages := [],
    input := "Hello", loading := false, voiceEnabled := true,
    listening := false, micPermission := "unknown", voiceStatus := "",
    recognitionCreated := false }

/-- A sample pair of toggle environments used to instantiate theorems. -/
def sampleToggles : List ToggleEnv :=
  [{ micOutcome := MicOutcome.granted, startOk := true },
   { micOutcome := MicOutcome.granted, startOk := true }]

theorem sendMessage_guard_false {s : ChatState} (h1 : jsTrim s.input ≠ "")
    (h2 : s.loading = false) : ¬(jsTrim s.input = "" ∨ s.loading = true) := by
  rintro (h | h)
  · exact h1 h
  · simp [h2] at h

/-- C1: when the trimmed input is non-empty and loading is false, sendMessage
appends exactly one user message carrying the trimmed input, clears the input
and sets loading before the ask request is issued; when the trimmed input is
empty or loading is true, it changes nothing. -/
theorem sendMessage_appends_user_before_ask :
    ∀ (s : ChatState) (ask : AskOutcome) (listResp : Option (List Conversation)),
      ((jsTrim s.input = "" ∨ s.loading = true) → sendMessage s ask listResp = (s, [])) ∧
      (jsTrim s.input ≠ "" → s.loading = false →
        (sendMessage s ask listResp).1.input = "" ∧
        (sendMessage s ask listResp).2.take 4 =
          [Event.appendUser (jsTrim s.input), Event.clearInput, Event.setLoadingTrue,
           Event.askRequest (jsTrim s.input) s.activeId] ∧
        countUserAppends (sendMessage s ask listResp).2 = 1) := by
  intro s ask listResp
  refine ⟨fun h => by simp only [sendMessage, if_pos h], fun h1 h2 => ?_⟩
  have hc := sendMessage_guard_false h1 h2
  cases ask with
  | success reply =>
      cases listResp <;>
        by_cases hv : s.voiceEnabled = true <;>
          simp [sendMessage, if_neg hc, hv, countUserAppends]
  | netErr => simp [sendMessage, if_neg hc, countUserAppends]
  | httpErr => simp [sendMessage, if_neg hc, countUserAppends]

/-- Witness for C1 at a concrete state. -/
theorem sendMessage_appends_user_before_ask_witness :
    jsTrim sampleState.input ≠ "" ∧ sampleState.loading = false ∧
    ((sendMessage sampleState AskOutcome.netErr none).1.input = "" ∧
     (sendMessage sampleState AskOutcome.netErr none).2.take 4 =
       [Event.appendUser (jsTrim sampleState.input), Event.clearInput, Event.setLoadingTrue,
        Event.askRequest (jsTrim sampleState.input) sampleState.activeId] ∧
     countUserAppends (sendMessage sampleState AskOutcome.netErr none).2 = 1) :=
  ⟨by decide, rfl,
   (sendMessage_appends_user_before_ask sampleState AskOutcome.netErr none).2 (by decide) rfl⟩

/-- C2: a failed ask call (non-OK response or network/parse error) appends the
fixed apology as the assistant turn right after the kept optimistic user
message, and loading ends false. -/
theorem sendMessage_failure_appends_apology :
    ∀ (s : ChatState) (ask : AskOutcome) (listResp : Option (List Conversation)),
      jsTrim s.input ≠ "" → s.loading = false →
      (ask = AskOutcome.netErr ∨ ask = AskOutcome.httpErr) →
      (sendMessage s ask listResp).1.messages =
        s.messages ++ [{ role := "user", content := jsTrim s.input },
                       { role := "assistant", content := apologyText }] ∧
      (sendMessage s ask listResp).1.loading = false ∧
      (sendMessage s ask listResp).2 =
        [Event.appendUser (jsTrim s.input), Event.clearInput, Event.setLoadingTrue,
         Event.askRequest (jsTrim s.input) s.activeId,
         Event.appendAssistant apologyText, Event.setLoadingFalse] := by
  intro s ask listResp h1 h2 h3
  have hc := sendMessage_guard_false h1 h2
  rcases h3 with rfl | rfl <;> simp [sendMessage, if_neg hc]

/-- Witness for C2 at a concrete state and a non-OK response. -/
theorem sendMessage_failure_appends_apology_witness :
    (sendMessage sampleState AskOutcome.httpErr none).1.messages =
      sampleState.messages ++ [{ role := "user", content := jsTrim sampleState.input },
                               { role := "assistant", content := apologyText }] ∧
    (sendMessage sampleState AskOutcome.httpErr none).1.loading = false ∧
    (sendMessage sampleState AskOutcome.httpErr none).2 =
      [Event.appendUser (jsTrim sampleState.input), Event.clearInput, Event.setLoadingTrue,
       Event.askRequest (jsTrim sampleState.input) sampleState.activeId,
       Event.appendAssistant apologyText, Event.setLoadingFalse] :=
  sendMessage_failure_appends_apology sampleState AskOutcome.httpErr none
    (by decide) rfl (Or.inr rfl)

/-- C3 counterexample: sending "Hello" with reply "Hi there" and a successful
list refresh produces the effect trace with the conversation-list refresh
strictly before the speak effect, so the order claimed by the spec (speak,
then refresh) does not hold. -/
theorem sendMessage_speak_after_refresh :
    (sendMessage sampleState (AskOutcome.success "Hi there") (some [])).2 =
      [Event.appendUser "Hello", Event.clearInput, Event.setLoadingTrue,
       Event.askRequest "Hello" (some "c1"), Event.appendAssistant "Hi there",
       Event.refreshList, Event.speak "Hi there", Event.setLoadingFalse] ∧
    ¬ speakPrecedesRefresh
        (sendMessage sampleState (AskOutcome.success "Hi there") (some [])).2 := by
  constructor
  · decide
  · simp only [speakPrecedesRefresh]
    decide

/-- C3 (amended): on a successful ask with reply r, the history becomes the
prior history plus the user message and one assistant message with content r,
loading ends false, and the success steps run in the order: append the reply,
then refresh the conversation list, then (if voice output is enabled) speak
the reply. -/
theorem sendMessage_success_effects :
    ∀ (s : ChatState) (reply : String) (listResp : Option (List Conversation)),
      jsTrim s.input ≠ "" → s.loading = false →
      (sendMessage s (AskOutcome.success reply) listResp).1.messages =
        s.messages ++ [{ role := "user", content := jsTrim s.input },
                       { role := "assistant", content := reply }] ∧
      (sendMessage s (AskOutcome.success reply) listResp).1.loading = false ∧
      (sendMessage s (AskOutcome.success reply) listResp).2 =
        [Event.appendUser (jsTrim s.input), Event.clearInput, Event.setLoadingTrue,
         Event.askRequest (jsTrim s.input) s.activeId, Event.appendAssistant reply]
          ++ (match listResp with
              | some _ => [Event.refreshList]
              | none => ([] : List Event))
          ++ (if s.voiceEnabled = true then [Event.speak reply] else [])
          ++ [Event.setLoadingFalse] := by
  intro s reply listResp h1 h2
  have hc := sendMessage_guard_false h1 h2
  cases listResp <;>
    by_cases hv : s.voiceEnabled = true <;>
      simp [sendMessage, if_neg hc, hv]

/-- Witness for the amended C3 at a concrete state with voice enabled. -/
theorem sendMessage_success_effects_witness :
    (sendMessage sampleState (AskOutcome.success "Hi there") (some [])).1.messages =
      sampleState.messages ++ [{ role := "user", content := jsTrim sampleState.input },
                               { role := "assistant", content := "Hi there" }] ∧
    (sendMessage sampleState (AskOutcome.success "Hi there") (some [])).1.loading = false ∧
    (sendMessage sampleState (AskOutcome.success "Hi there") (some [])).2 =
      [Event.appendUser (jsTrim sampleState.input), Event.clearInput, Event.setLoadingTrue,
       Event.askRequest (jsTrim sampleState.input) sampleState.activeId,
       Event.appendAssistant "Hi there"]
        ++ [Event.refreshList]
        ++ (if sampleState.voiceEnabled = true then [Event.speak "Hi there"] else [])
        ++ [Event.setLoadingFalse] :=
  sendMessage_success_effects sampleState "Hi there" (some []) (by decide) rfl

/-- C4: loadMessages installs the fetched array when it is non-empty, and
exactly one canned assistant greeting when the history is empty, not an array,
or the request failed; the result is never blank. -/
theorem loadMessages_never_blank :
    ∀ (s : ChatState) (resp : MessagesResp),
      (∀ data, resp = MessagesResp.arr data → data ≠ [] →
        (loadMessages s resp).messages = data) ∧
      ((resp = MessagesResp.arr [] ∨ resp = MessagesResp.nonArray ∨ resp = MessagesResp.fail) →
        (loadMessages s resp).messages = [greetingMessage]) ∧
      (loadMessages s resp).messages ≠ [] := by
  intro s resp
  refine ⟨?_, ?_, ?_⟩
  · rintro data rfl hd
    cases data with
    | nil => exact absurd rfl hd
    | cons m ms => simp [loadMessages]
  · rintro (rfl | rfl | rfl) <;> simp [loadMessages]
  · cases resp with
    | arr data => cases data <;> simp [loadMessages]
    | nonArray => simp [loadMessages]
    | fail => simp [loadMessages]

/-- Witness for C4 on a non-empty fetched history and on a failed request. -/
theorem loadMessages_never_blank_witness :
    (loadMessages sampleState (MessagesResp.arr [newChatMessage])).messages =
      [newChatMessage] ∧
    (loadMessages sampleState MessagesResp.fail).messages = [greetingMessage] :=
  ⟨(loadMessages_never_blank sampleState (MessagesResp.arr [newChatMessage])).1
      [newChatMessage] rfl (by decide),
   (loadMessages_never_blank sampleState MessagesResp.fail).2.1 (Or.inr (Or.inr rfl))⟩

theorem toggleListening_not_supported (s : ChatState) (e : ToggleEnv) :
    toggleListening false s e = { s with voiceStatus := unsupportedRecMessage } := by
  simp [toggleListening]

/-- C5 counterexample: a network failure inside createConversation invoked via
the New-conversation action is not caught anywhere in the client: the click
handler returns the propagated error. -/
theorem newConversation_failure_propagates :
    newConversation sampleState none = Except.error () := rfl

/-- C5 (amended): network and permission failures in loadMessages, sendMessage,
toggleListening, ensureMicPermission and the mount-time init are caught locally
and converted into substitute messages or status strings, but a network failure
inside createConversation is only caught on the init path; invoked via the
New-conversation action it propagates out of the click handler unhandled. -/
theorem error_policy_amended :
    ∀ (s : ChatState) (listResp : Option (List Conversation)) (msgResp : MessagesResp)
      (e : ToggleEnv),
      (loadMessages s MessagesResp.fail).messages = [greetingMessage] ∧
      (jsTrim s.input ≠ "" → s.loading = false →
        (sendMessage s AskOutcome.netErr listResp).1.messages =
          s.messages ++ [{ role := "user", content := jsTrim s.input },
                         { role := "assistant", content := apologyText }]) ∧
      toggleListening false s e = { s with voiceStatus := unsupportedRecMessage } ∧
      ensureMicPermission s MicOutcome.denied =
        ({ s with micPermission := "denied", voiceStatus := micBlockedMessage }, false) ∧
      init s none none msgResp = { s with messages := [greetingMessage] } ∧
      init s (some []) none msgResp =
        { s with conversations := [], messages := [greetingMessage] } ∧
      newConversation s none = Except.error () := by
  intro s listResp msgResp e
  refine ⟨by simp [loadMessages], fun h1 h2 => ?_, toggleListening_not_supported s e,
          rfl, rfl, rfl, rfl⟩
  have hc := sendMessage_guard_false h1 h2
  simp [sendMessage, if_neg hc]

/-- Witness for the amended C5 at a concrete state. -/
theorem error_policy_amended_witness :
    (loadMessages sampleState MessagesResp.fail).messages = [greetingMessage] ∧
    (sendMessage sampleState AskOutcome.netErr none).1.messages =
      sampleState.messages ++ [{ role := "user", content := jsTrim sampleState.input },
                               { role := "assistant", content := apologyText }] ∧
    toggleListening false sampleState { micOutcome := MicOutcome.granted, startOk := true } =
      { sampleState with voiceStatus := unsupportedRecMessage } ∧
    ensureMicPermission sampleState MicOutcome.denied =
      ({ sampleState with micPermission := "denied", voiceStatus := micBlockedMessage }, false) ∧
    init sampleState none none MessagesResp.fail =
      { sampleState with messages := [greetingMessage] } ∧
    init sampleState (some []) none MessagesResp.fail =
      { sampleState with conversations := [], messages := [greetingMessage] } ∧
    newConversation sampleState none = Except.error () := by
  have h := error_policy_amended sampleState none MessagesResp.fail
    { micOutcome := MicOutcome.granted, startOk := true }
  exact ⟨h.1, h.2.1 (by decide) rfl, h.2.2.1, h.2.2.2.1, h.2.2.2.2.1,
         h.2.2.2.2.2.1, h.2.2.2.2.2.2⟩

/-- C6: a plain Enter always calls preventDefault and invokes sendMessage; an
Enter with Shift held leaves both alone so the newline is inserted. -/
theorem handleKey_enter_contract :
    ∀ e : KeyEvent,
      (e.key = "Enter" → e.shiftKey = false → handleKey e = (true, true)) ∧
      (e.shiftKey = true → handleKey e = (false, false)) := by
  intro e
  constructor
  · intro hk hs
    simp [handleKey, hk, hs]
  · intro hs
    simp [handleKey, hs]

/-- Witness for C6 on plain Enter and on Shift+Enter. -/
theorem handleKey_enter_contract_witness :
    handleKey { key := "Enter", shiftKey := false } = (true, true) ∧
    handleKey { key := "Enter", shiftKey := true } = (false, false) :=
  ⟨(handleKey_enter_contract { key := "Enter", shiftKey := false }).1 rfl rfl,
   (handleKey_enter_contract { key := "Enter", shiftKey := true }).2 rfl⟩

/-- C7: speakText is a no-op without synthesis support; otherwise it cancels
the current utterance before speaking, selects the first cached voice matching
the English-locale and natural-name tests, falling back to the first cached
voice and then to the platform default, with rate, pitch and volume 1. -/
theorem speakText_policy :
    ∀ (sup : Bool) (voices : List Voice) (text : String),
      (sup = false → speakText sup voices text = []) ∧
      (sup = true → speakText sup voices text =
        [SynthCmd.cancel, SynthCmd.speakUtterance
          { text := text, voice := preferredVoice voices,
            rate := 1, pitch := 1, volume := 1 }]) ∧
      (∀ v, voices.find? isPreferredVoice = some v →
        preferredVoice voices = some v ∧
        langMatchesEnglish v = true ∧ nameSuggestsNatural v = true) ∧
      (voices.find? isPreferredVoice = none → preferredVoice voices = voices.head?) := by
  intro sup voices text
  refine ⟨fun h => by simp [speakText, h], fun h => by simp [speakText, h],
          fun v hv => ?_, fun h => by simp [preferredVoice, h]⟩
  have hp := List.find?_some hv
  have hb : langMatchesEnglish v = true ∧ nameSuggestsNatural v = true := by
    simpa [isPreferredVoice, Bool.and_eq_true] using hp
  exact ⟨by simp [preferredVoice, hv], hb.1, hb.2⟩

/-- Witness for C7 on a concrete voice catalog. -/
theorem speakText_policy_witness :
    speakText false sampleVoices "Hello" = [] ∧
    speakText true sampleVoices "Hello" =
      [SynthCmd.cancel, SynthCmd.speakUtterance
        { text := "Hello", voice := preferredVoice sampleVoices,
          rate := 1, pitch := 1, volume := 1 }] ∧
    (preferredVoice sampleVoices =
        some { name := "Google US English Female", lang := "en-US" } ∧
      langMatchesEnglish { name := "Google US English Female", lang := "en-US" } = true ∧
      nameSuggestsNatural { name := "Google US English Female", lang := "en-US" } = true) :=
  ⟨(speakText_policy false sampleVoices "Hello").1 rfl,
   (speakText_policy true sampleVoices "Hello").2.1 rfl,
   (speakText_policy true sampleVoices "Hello").2.2.1
     { name := "Google US English Female", lang := "en-US" } (by decide)⟩

theorem toggleListening_preserves_created {s : ChatState} (rs : Bool) (e : ToggleEnv)
    (h : s.recognitionCreated = true) :
    (toggleListening rs s e).recognitionCreated = true := by
  obtain ⟨m, st⟩ := e
  cases rs with
  | false => simp [toggleListening, h]
  | true =>
      cases m <;> cases st <;>
        by_cases hl : s.listening <;>
          simp [toggleListening, ensureMicPermission, h, hl]

theorem toggleListening_creates {s : ChatState} (e : ToggleEnv) :
    (toggleListening true s e).recognitionCreated = true := by
  obtain ⟨m, st⟩ := e
  by_cases h : s.recognitionCreated <;>
    cases m <;> cases st <;>
      by_cases hl : s.listening <;>
        simp [toggleListening, ensureMicPermission, h, hl]

theorem runToggles_count_created {s : ChatState} (rs : Bool) (l : List ToggleEnv)
    (h : s.recognitionCreated = true) : (runToggles rs s l).2 = 0 := by
  induction l generalizing s with
  | nil => simp [runToggles]
  | cons e es ih =>
      simp only [runToggles, createsRecognition, h]
      simpa using ih (toggleListening_preserves_created rs e h)

theorem runToggles_count_le_one {s : ChatState} (rs : Bool) (l : List ToggleEnv)
    (h : s.recognitionCreated = false) : (runToggles rs s l).2 ≤ 1 := by
  induction l generalizing s with
  | nil => simp [runToggles]
  | cons e es ih =>
      cases rs with
      | false =>
          have h1 : (toggleListening false s e).recognitionCreated = false := by
            simp [toggleListening, h]
          simpa [runToggles, createsRecognition] using ih h1
      | true =>
          have h2 := toggleListening_creates (s := s) e
          have h3 := runToggles_count_created true es h2
          simp [runToggles, createsRecognition, h, h3]

theorem runToggles_unsupported (s : ChatState) (l : List ToggleEnv) :
    ((runToggles false s l).1).listening = s.listening ∧
    ((runToggles false s l).1).recognitionCreated = s.recognitionCreated := by
  induction l generalizing s with
  | nil => exact ⟨rfl, rfl⟩
  | cons e es ih =>
      have h := ih (s := { s with voiceStatus := unsupportedRecMessage })
      simpa [runToggles, toggleListening_not_supported s e] using h

/-- C8: in an unsupported browser every toggle only sets the status message,
so across any toggle sequence the adapter never starts listening and never
creates a recognition instance; and over any toggle sequence in any browser at
most one recognition instance is ever created. -/
theorem toggleListening_unsupported_single_instance :
    ∀ (s : ChatState) (e : ToggleEnv) (l : List ToggleEnv) (rs : Bool),
      toggleListening false s e = { s with voiceStatus := unsupportedRecMessage } ∧
      (s.listening = false → ((runToggles false s l).1).listening = false) ∧
      ((runToggles false s l).1).recognitionCreated = s.recognitionCreated ∧
      (s.recognitionCreated = false → (runToggles rs s l).2 ≤ 1) := by
  intro s e l rs
  refine ⟨toggleListening_not_supported s e, fun h => ?_,
          (runToggles_unsupported s l).2, fun h => runToggles_count_le_one rs l h⟩
  rw [(runToggles_unsupported s l).1, h]

/-- Witness for C8 on a concrete toggle sequence. -/
theorem toggleListening_unsupported_single_instance_witness :
    toggleListening false sampleState { micOutcome := MicOutcome.granted, startOk := true } =
      { sampleState with voiceStatus := unsupportedRecMessage } ∧
    ((runToggles false sampleState sampleToggles).1).listening = false ∧
    ((runToggles false sampleState sampleToggles).1).recognitionCreated =
      sampleState.recognitionCreated ∧
    (runToggles true sampleState sampleToggles).2 ≤ 1 := by
  have h := toggleListening_unsupported_single_instance sampleState
    { micOutcome := MicOutcome.granted, startOk := true } sampleToggles true
  exact ⟨h.1, h.2.1 rfl, h.2.2.1, h.2.2.2 rfl⟩

/-- C9: selecting the already-active conversation changes nothing; selecting a
different id sets the active id, reloads the messages for it, and leaves every
other field, in particular the conversation list with its titles and
timestamps, unchanged. -/
theorem selectConversation_frame :
    ∀ (s : ChatState) (id : String) (resp : MessagesResp),
      (some id = s.activeId → selectConversation s id resp = s) ∧
      (some id ≠ s.activeId →
        (selectConversation s id resp).activeId = some id ∧
        (selectConversation s id resp).conversations = s.conversations ∧
        (selectConversation s id resp).messages =
          (loadMessages { s with activeId := some id } resp).messages ∧
        (selectConversation s id resp).input = s.input ∧
        (selectConversation s id resp).loading = s.loading ∧
        (selectConversation s id resp).voiceEnabled = s.voiceEnabled ∧
        (selectConversation s id resp).listening = s.listening ∧
        (selectConversation s id resp).micPermission = s.micPermission ∧
        (selectConversation s id resp).voiceStatus = s.voiceStatus ∧
        (selectConversation s id resp).recognitionCreated = s.recognitionCreated) := by
  intro s id resp
  refine ⟨fun h => by simp [selectConversation, h], fun h => ?_⟩
  have e : selectConversation s id resp = loadMessages { s with activeId := some id } resp := by
    simp [selectConversation, h]
  rw [e]
  cases resp with
  | arr data => by_cases hd : data.length > 0 <;> simp [loadMessages, hd]
  | nonArray => simp [loadMessages]
  | fail => simp [loadMessages]

/-- Witness for C9 on the active id and on a fresh id. -/
theorem selectConversation_frame_witness :
    selectConversation sampleState "c1" MessagesResp.fail = sampleState ∧
    (selectConversation sampleState "c2" MessagesResp.fail).activeId = some "c2" ∧
    (selectConversation sampleState "c2" MessagesResp.fail).conversations =
      sampleState.conversations :=
  ⟨(selectConversation_frame sampleState "c1" MessagesResp.fail).1 rfl,
   ((selectConversation_frame sampleState "c2" MessagesResp.fail).2 (by decide)).1,
   ((selectConversation_frame sampleState "c2" MessagesResp.fail).2 (by decide)).2.1⟩

/-- C10: when the ask call succeeds but the conversation-list refresh fetch
fails, the failure is swallowed: the reply stays appended with no apology, the
conversation list is unchanged, the reply is still spoken when voice output is
enabled, and loading ends false. -/
theorem sendMessage_refresh_failure_swallowed :
    ∀ (s : ChatState) (reply : String),
      jsTrim s.input ≠ "" → s.loading = false →
      (sendMessage s (AskOutcome.success reply) none).1.messages =
        s.messages ++ [{ role := "user", content := jsTrim s.input },
                       { role := "assistant", content := reply }] ∧
      (sendMessage s (AskOutcome.success reply) none).1.conversations = s.conversations ∧
      (sendMessage s (AskOutcome.success reply) none).1.loading = false ∧
      (sendMessage s (AskOutcome.success reply) none).2 =
        [Event.appendUser (jsTrim s.input), Event.clearInput, Event.setLoadingTrue,
         Event.askRequest (jsTrim s.input) s.activeId, Event.appendAssistant reply]
          ++ (if s.voiceEnabled = true then [Event.speak reply] else [])
          ++ [Event.setLoadingFalse] := by
  intro s reply h1 h2
  have hc := sendMessage_guard_false h1 h2
  by_cases hv : s.voiceEnabled = true <;> simp [sendMessage, if_neg hc, hv]

/-- Witness for C10 at a concrete state with voice enabled. -/
theorem sendMessage_refresh_failure_swallowed_witness :
    (sendMessage sampleState (AskOutcome.success "Hi there") none).1.messages =
      sampleState.messages ++ [{ role := "user", content := jsTrim sampleState.input },
                               { role := "assistant", content := "Hi there" }] ∧
    (sendMessage sampleState (AskOutcome.success "Hi there") none).1.conversations =
      sampleState.conversations ∧
    (sendMessage sampleState (AskOutcome.success "Hi there") none).1.loading = false ∧
    (sendMessage sampleState (AskOutcome.success "Hi there") none).2 =
      [Event.appendUser (jsTrim sampleState.input), Event.clearInput, Event.setLoadingTrue,
       Event.askRequest (jsTrim sampleState.input) sampleState.activeId,
       Event.appendAssistant "Hi there"]
        ++ (if sampleState.voiceEnabled = true then [Event.speak "Hi there"] else [])
        ++ [Event.setLoadingFalse] :=
  sendMessage_refresh_failure_swallowed sampleState "Hi there" (by decide) rfl

end ChatClient
